import Mathlib

/-!
Verification of the chess game-analysis pipeline:
a shallow embedding of `game_analyzer.py` and `analyze_all_games.py`.

Python dynamic values are modelled by `PyVal`; operations that can raise a
Python exception return `Except PyErr _`.  `datetime.fromtimestamp` is
modelled as a range-checked identity on the raw epoch value (it raises
outside the representable `datetime` range); JSON (de)serialization of a
cache file is modelled by storing the structured value itself, since
`json.dump`/`json.load` round-trip the value types that occur here.
-/

/-- A Python runtime value (the subset that flows through this program). -/
inductive PyVal where
  | none
  | bool (b : Bool)
  | int (n : Int)
  | str (s : String)
  | list (xs : List PyVal)
  | dict (entries : List (String × PyVal))
deriving BEq, Repr

/-- A Python exception kind (only the kind matters to control flow here). -/
inductive PyErr where
  | attributeError
  | typeError
  | keyError
  | valueError
deriving BEq, DecidableEq, Repr

/-- Python truthiness of a value. -/
def pyTruthy : PyVal → Bool
  | .none => false
  | .bool b => b
  | .int n => n != 0
  | .str s => s != ""
  | .list xs => !xs.isEmpty
  | .dict d => !d.isEmpty

abbrev PyDict := List (String × PyVal)

/-- Key lookup in a Python dict (first binding wins, as in our assoc-list model). -/
def dictFind (d : PyDict) (k : String) : Option PyVal :=
  (d.find? (fun p => p.1 == k)).map (·.2)

/-- `d.get(k, default)` on a value that is known to be a dict. -/
def dictGetD (d : PyDict) (k : String) (default : PyVal) : PyVal :=
  (dictFind d k).getD default

/-- `v.get(k, default)`: raises `AttributeError` when `v` is not a dict. -/
def pyGetAttrGet (v : PyVal) (k : String) (default : PyVal) : Except PyErr PyVal :=
  match v with
  | .dict d => .ok (dictGetD d k default)
  | _ => .error .attributeError

/-- Python `s.lower()` (character-wise ASCII lowering). -/
def strLower (s : String) : String :=
  String.mk (s.data.map Char.toLower)

/-- `v.lower()`: raises `AttributeError` when the receiver is not a string. -/
def pyLower (v : PyVal) : Except PyErr String :=
  match v with
  | .str s => .ok (strLower s)
  | _ => .error .attributeError

mutual

/-- `str(v)` / `repr(v)` for rendering inside f-strings (string escaping in
`repr` of nested strings is not reproduced; no claim depends on it). -/
def pyRepr : PyVal → String
  | .none => "None"
  | .bool b => if b then "True" else "False"
  | .int n => toString n
  | .str s => String.singleton (Char.ofNat 39) ++ s ++ String.singleton (Char.ofNat 39)
  | .list xs => "[" ++ ", ".intercalate (pyReprList xs) ++ "]"
  | .dict d => "\x7b" ++ ", ".intercalate (pyReprDict d) ++ "\x7d"

/-- `repr` of the elements of a Python list. -/
def pyReprList : List PyVal → List String
  | [] => []
  | x :: xs => pyRepr x :: pyReprList xs

/-- `repr` of the entries of a Python dict. -/
def pyReprDict : List (String × PyVal) → List String
  | [] => []
  | (k, v) :: rest =>
      (String.singleton (Char.ofNat 39) ++ k ++ String.singleton (Char.ofNat 39) ++ ": "
        ++ pyRepr v) :: pyReprDict rest

end

/-- `str(v)` as used by an f-string: a string renders as itself, everything
else as its `repr`. -/
def pyStr (v : PyVal) : String :=
  match v with
  | .str s => s
  | _ => pyRepr v

/-- Python `s.split()`: split on whitespace runs, dropping empty pieces. -/
def pySplitWs (s : String) : List String :=
  (s.split Char.isWhitespace).filter (fun p => p != "")

/-- Python `//` (floor division). -/
def pyFloorDiv (a b : Int) : Int := Int.fdiv a b

/-- A value used where Python needs a number: `int` or `bool` succeed
(`True` counts as 1), anything else raises `TypeError`. -/
def pyAsInt (v : PyVal) : Except PyErr Int :=
  match v with
  | .int n => .ok n
  | .bool b => .ok (if b then 1 else 0)
  | _ => .error .typeError

/-- Epoch seconds of `0001-01-01 00:00:00 UTC`, the start of the
`datetime` range. -/
def minTimestampSec : Int := -62135596800

/-- Epoch seconds of `9999-12-31 23:59:59 UTC`, the last whole second of
the `datetime` range. -/
def maxTimestampSec : Int := 253402300799

/-- `datetime.fromtimestamp(ms / 1000)` on epoch milliseconds: the
instant is kept (as raw milliseconds) when it falls inside the
representable `datetime` range (years 1 to 9999), and `ValueError` is
raised outside it, as the standard library does.  The bounds are taken
at UTC — the exact cutoff shifts by the local UTC offset — and the
`OverflowError` raised for inputs too large even for the float division
is collapsed into the same error outcome; no claim depends on the exact
boundary or on the error kind. -/
def pyFromTimestampMs (ms : Int) : Except PyErr Int :=
  if minTimestampSec * 1000 ≤ ms ∧ ms ≤ maxTimestampSec * 1000 + 999 then .ok ms
  else .error .valueError

/-- The `GameInfo` dataclass of `game_analyzer.py`.  Fields that Python
stores without inspecting keep type `PyVal`; fields the constructor itself
computes get the type the computation guarantees.  `created_at` keeps the
raw `createdAt` epoch value accepted by `pyFromTimestampMs` (the
`datetime` wrapper carries no more information relevant here). -/
structure GameInfo where
  game_id : PyVal
  winner : PyVal
  white_player : PyVal
  black_player : PyVal
  white_rating : PyVal
  black_rating : PyVal
  moves : List String
  opening_name : PyVal
  opening_eco : PyVal
  game_status : PyVal
  time_control : String
  created_at : Int
  total_moves : Nat
deriving BEq, Repr

/-- `extract_game_info` of `game_analyzer.py`: build a `GameInfo` from one
raw Lichess record.  Each `.get` chain is modelled step by step so that the
exact raising behaviour of Python attribute access is preserved. -/
def extract_game_info (game_data : PyDict) : Except PyErr GameInfo := do
  let winner := dictGetD game_data "winner" .none
  let players := dictGetD game_data "players" (.dict [])
  let whiteSide ← pyGetAttrGet players "white" (.dict [])
  let whiteUser ← pyGetAttrGet whiteSide "user" (.dict [])
  let white_player ← pyGetAttrGet whiteUser "name" (.str "Unknown")
  let blackSide ← pyGetAttrGet players "black" (.dict [])
  let blackUser ← pyGetAttrGet blackSide "user" (.dict [])
  let black_player ← pyGetAttrGet blackUser "name" (.str "Unknown")
  let white_rating ← pyGetAttrGet whiteSide "rating" (.int 0)
  let black_rating ← pyGetAttrGet blackSide "rating" (.int 0)
  let moves_string := dictGetD game_data "moves" (.str "")
  let moves ←
    if pyTruthy moves_string then
      match moves_string with
      | .str s => .ok (pySplitWs s)
      | _ => .error .attributeError
    else
      .ok []
  let opening := dictGetD game_data "opening" (.dict [])
  let opening_name ← pyGetAttrGet opening "name" (.str "Unknown Opening")
  let opening_eco ← pyGetAttrGet opening "eco" (.str "Unknown")
  let game_id := dictGetD game_data "id" (.str "Unknown")
  let game_status := dictGetD game_data "status" (.str "Unknown")
  let created_ms ← pyAsInt (dictGetD game_data "createdAt" (.int 0))
  let created_at ← pyFromTimestampMs created_ms
  let clock := dictGetD game_data "clock" (.dict [])
  let initialV ← pyGetAttrGet clock "initial" (.int 0)
  let initialN ← pyAsInt initialV
  let initial_time := pyFloorDiv initialN 60
  let increment ← pyGetAttrGet clock "increment" (.int 0)
  let time_control := toString initial_time ++ "+" ++ pyStr increment
  return {
    game_id := game_id
    winner := winner
    white_player := white_player
    black_player := black_player
    white_rating := white_rating
    black_rating := black_rating
    moves := moves
    opening_name := opening_name
    opening_eco := opening_eco
    game_status := game_status
    time_control := time_control
    created_at := created_at
    total_moves := moves.length
  }

/-- The colour assignment of `OllamaAnalyzer.format_game_for_analysis`
(line `user_color = "White" if game.white_player.lower() == username.lower()
else "Black"`). -/
def format_user_color (g : GameInfo) (username : String) : Except PyErr String := do
  let w ← pyLower g.white_player
  return (if w == strLower username then "White" else "Black")

/-- `opponent = game.black_player if user_color == "White" else game.white_player`. -/
def format_opponent (g : GameInfo) (user_color : String) : PyVal :=
  if user_color == "White" then g.black_player else g.white_player

/-- Result from the player perspective in `format_game_for_analysis`. -/
def format_result (g : GameInfo) (user_color : String) : String :=
  if g.winner == PyVal.none then "Draw"
  else if (user_color == "White" && g.winner == PyVal.str "white")
        || (user_color == "Black" && g.winner == PyVal.str "black") then "Win"
  else "Loss"

/-- The numbered move-pair rendering of `format_game_for_analysis`:
`for i in range(0, len(game.moves), 2)` producing `"1. e4 e5"` lines, with a
trailing odd move rendered alone. -/
def format_move_pairs (moves : List String) : List String :=
  (List.range ((moves.length + 1) / 2)).map (fun p =>
    let i := 2 * p
    let white_move := moves.getD i ""
    let black_move := moves.getD (i + 1) ""
    let move_num := p + 1
    if black_move != "" then
      s!"{move_num}. {white_move} {black_move}"
    else
      s!"{move_num}. {white_move}")

/-- `OllamaAnalyzer.format_game_for_analysis`: render the full prompt for
one game.  Raises whatever the colour determination raises (the only
fallible step: `.lower()` on the stored white-player value). -/
def format_game_for_analysis (g : GameInfo) (username : String) :
    Except PyErr String := do
  let user_color ← format_user_color g username
  let opponent := format_opponent g user_color
  let user_rating := if user_color == "White" then g.white_rating else g.black_rating
  let opponent_rating := if user_color == "White" then g.black_rating else g.white_rating
  let result := format_result g user_color
  let formatted_moves := " ".intercalate (format_move_pairs g.moves)
  return "\nGame Analysis Request:\n\nPlayer: " ++ username
    ++ " (Rating: " ++ pyStr user_rating ++ ")\nOpponent: " ++ pyStr opponent
    ++ " (Rating: " ++ pyStr opponent_rating ++ ")\nColor: " ++ user_color
    ++ "\nResult: " ++ result
    ++ "\nOpening: " ++ pyStr g.opening_name ++ " (" ++ pyStr g.opening_eco ++ ")"
    ++ "\nGame Status: " ++ pyStr g.game_status
    ++ "\nTime Control: " ++ g.time_control
    ++ "\nTotal Moves: " ++ toString g.total_moves
    ++ "\n\nMoves: " ++ formatted_moves
    ++ "\n\nPlease analyze this chess game and provide feedback on:"
    ++ "\n1. Key strategic decisions and turning points"
    ++ "\n2. Tactical mistakes or missed opportunities"
    ++ "\n3. Opening play evaluation"
    ++ "\n4. Endgame technique (if applicable)"
    ++ "\n5. Specific suggestions for improvement"
    ++ "\n6. Overall assessment of the player\x27s performance"
    ++ "\n\nFocus on constructive feedback that will help the player improve"
    ++ " their chess skills.\n"

/-- `safe_model = model.replace(":", "_").replace("/", "_")` of
`OllamaAnalyzer.get_cache_filename`; with single-character patterns the two
`str.replace` calls are character-wise maps. -/
def safe_model (model : String) : String :=
  String.mk (((model.data.map (fun c => if c == ':' then '_' else c)).map
    (fun c => if c == '/' then '_' else c)))

/-- The basename part `f"{game_id}_{username}_{safe_model}.json"` of the
cache filename. -/
def cache_basename (game_id username model : String) : String :=
  game_id ++ "_" ++ username ++ "_" ++ safe_model model ++ ".json"

/-- `OllamaAnalyzer.get_cache_filename` (with `os.path.join` rendered as a
slash-separated path). -/
def get_cache_filename (cache_dir game_id model username : String) : String :=
  cache_dir ++ "/" ++ cache_basename game_id username model

/-- The on-disk cache: filename → stored JSON value.  A write prepends, so
the newest entry for a filename shadows older ones (wholesale overwrite). -/
structure CacheState where
  files : List (String × PyVal)
deriving Repr

/-- The nested `game_info` snapshot written by `save_analysis_to_cache`
(`created_at.isoformat()` is modelled by the raw epoch value). -/
def game_info_snapshot (gi : GameInfo) : PyVal :=
  .dict [("white_player", gi.white_player),
         ("black_player", gi.black_player),
         ("winner", gi.winner),
         ("opening_name", gi.opening_name),
         ("opening_eco", gi.opening_eco),
         ("total_moves", .int gi.total_moves),
         ("created_at", .int gi.created_at)]

/-- The `cache_data` object written by `save_analysis_to_cache`; `now` is
`datetime.now().isoformat()`. -/
def cache_entry (game_id model username analysis now : String) (gi : GameInfo) : PyVal :=
  .dict [("game_id", .str game_id),
         ("model", .str model),
         ("username", .str username),
         ("analysis", .str analysis),
         ("timestamp", .str now),
         ("game_info", game_info_snapshot gi)]

/-- `OllamaAnalyzer.save_analysis_to_cache`: serialize `cache_data` to the
derived filename, overwriting any previous entry for that filename. -/
def save_analysis_to_cache (st : CacheState) (cache_dir game_id model username analysis : String)
    (gi : GameInfo) (now : String) : CacheState :=
  ⟨(get_cache_filename cache_dir game_id model username,
    cache_entry game_id model username analysis now gi) :: st.files⟩

/-- `OllamaAnalyzer.load_analysis_from_cache`: read back the file for the
derived filename; a missing file yields `none`. -/
def load_analysis_from_cache (st : CacheState) (cache_dir game_id model username : String) :
    Option PyVal :=
  ((st.files.find? (fun p => p.1 == get_cache_filename cache_dir game_id model username)).map
    (·.2))

/-- `"pat" in s` for strings: substring containment. -/
def strContainsSub (s pat : String) : Bool :=
  (List.range (s.length + 1)).any (fun i => pat.isPrefixOf (s.drop i))

/-- Python `key in v`: key lookup for a dict, substring test for a string,
membership for a list, `TypeError` otherwise. -/
def pyIn (key : String) (v : PyVal) : Except PyErr Bool :=
  match v with
  | .dict d => .ok ((dictFind d key).isSome)
  | .str s => .ok (strContainsSub s key)
  | .list xs => .ok (xs.contains (.str key))
  | _ => .error .typeError

/-- Python `v[key]` with a string key: dict indexing (`KeyError` when the
key is absent), `TypeError` for every other receiver. -/
def pyIndex (v : PyVal) (key : String) : Except PyErr PyVal :=
  match v with
  | .dict d =>
    match dictFind d key with
    | some x => .ok x
    | none => .error .keyError
  | _ => .error .typeError

/-- `acc += t` where `acc` is a `str`: raises `TypeError` unless `t` is a
string too. -/
def pyAddStr (acc : String) (t : PyVal) : Except PyErr String :=
  match t with
  | .str s => .ok (acc ++ s)
  | _ => .error .typeError

/-- Truthiness of `s.strip()`: true iff the string has a non-whitespace
character. -/
def pyStripTruthy (s : String) : Bool :=
  s.data.any (fun c => !c.isWhitespace)

/-- One line of the streamed response body, represented by what
`line.strip()` / `json.loads(line)` yields: a whitespace-only line, a line
that raises `JSONDecodeError`, or a parsed JSON value. -/
inductive StreamLine where
  | blank
  | malformed
  | chunk (v : PyVal)
deriving BEq, Repr

/-- The chunk-consuming loop of
`StreamingOllamaAnalyzer.analyze_game_streaming`: accumulate the
`response` fields, stop at the first truthy `done` flag, skip blank and
malformed lines.  Returns the accumulated text together with the lines
left unconsumed; a non-`JSONDecodeError` exception escapes the loop. -/
def stream_loop : List StreamLine → String → Except PyErr (String × List StreamLine)
  | [], acc => .ok (acc, [])
  | .blank :: rest, acc => stream_loop rest acc
  | .malformed :: rest, acc => stream_loop rest acc
  | .chunk v :: rest, acc =>
    match pyIn "response" v with
    | .error e => .error e
    | .ok true =>
      match pyIndex v "response" with
      | .error e => .error e
      | .ok t =>
        match pyAddStr acc t with
        | .error e => .error e
        | .ok acc' =>
          match pyGetAttrGet v "done" (.bool false) with
          | .error e => .error e
          | .ok d => if pyTruthy d then .ok (acc', rest) else stream_loop rest acc'
    | .ok false =>
      match pyGetAttrGet v "done" (.bool false) with
      | .error e => .error e
      | .ok d => if pyTruthy d then .ok (acc, rest) else stream_loop rest acc

/-- `StreamingOllamaAnalyzer.analyze_game_streaming`, restricted to its
response-parsing part (connection setup is external I/O): run the chunk
loop on the body lines; any exception escaping the loop is caught by the
outer handler and yields `none`; otherwise return the accumulated text,
or `none` when it is empty or whitespace-only. -/
def analyze_game_streaming (lines : List StreamLine) : Option String :=
  match stream_loop lines "" with
  | .error _ => none
  | .ok (acc, _) => if pyStripTruthy acc then some acc else none

/-- Python `v == s` for a string literal `s`: value equality for strings,
`False` for every other type. -/
def pyEqStr (v : PyVal) (s : String) : Bool :=
  match v with
  | .str t => t == s
  | _ => false

/-- The pre-loop selection of `analyze_all_games`: slice from the first
record whose id equals `start_from` (index 0 when no record matches or
when `start_from` is falsy), then truncate to `max_games` when that is a
positive number. -/
def select_games (games : List GameInfo) (start_from : Option String)
    (max_games : Option Int) : List GameInfo :=
  let games1 :=
    match start_from with
    | some sf =>
      if sf != "" then
        games.drop ((games.findIdx? (fun g => pyEqStr g.game_id sf)).getD 0)
      else games
    | none => games
  match max_games with
  | some m => if m > 0 then games1.take m.toNat else games1
  | none => games1

/-- What one call to `analyze_game_with_streaming_cache` does for a record,
as observed by the loop of `analyze_all_games`: it returns an optional
analysis string, or an exception escapes it. -/
inductive StepOutcome where
  | ok (analysis : Option String)
  | exn
deriving BEq, Repr

/-- `if analysis:` — the outcome counts as a success iff the call returned
a truthy (non-empty) string. -/
def outcome_success : StepOutcome → Bool
  | .ok (some s) => s != ""
  | _ => false

/-- The `stats` dictionary of `analyze_all_games` (the per-game report
entries keep only the fields the loop writes). -/
structure BatchStats where
  total_games : Nat
  successful_analyses : Nat
  failed_analyses : Nat
  cached_analyses : Nat
  analyzed_games : List PyVal
deriving BEq, Repr

/-- The per-game report entry appended to `stats["analyzed_games"]`. -/
def analyzed_entry (g : GameInfo) (analysis_len : Nat) (was_cached : Bool) : PyVal :=
  .dict [("game_id", g.game_id),
         ("opening", g.opening_name),
         ("result", if pyTruthy g.winner then g.winner else .str "draw"),
         ("total_moves", .int g.total_moves),
         ("analysis_length", .int analysis_len),
         ("was_cached", .bool was_cached)]

/-- One iteration of the `for i, game in enumerate(games, 1)` loop of
`analyze_all_games`.  `cached` tells whether a cache entry pre-existed
(the `is_cached` probe), `outcome` what the guarded analysis call did; an
`exn` outcome is caught by the per-record `except` and counted as a
failure. -/
def run_step (force_refresh : Bool) (cached : GameInfo → Bool)
    (outcome : GameInfo → StepOutcome) (st : BatchStats) (g : GameInfo) : BatchStats :=
  let is_cached := !force_refresh && cached g
  match outcome g with
  | .exn => { st with failed_analyses := st.failed_analyses + 1 }
  | .ok a =>
    match a with
    | some s =>
      if s != "" then
        { st with
          successful_analyses := st.successful_analyses + 1
          cached_analyses := st.cached_analyses + (if is_cached then 1 else 0)
          analyzed_games := st.analyzed_games ++ [analyzed_entry g s.length is_cached] }
      else
        { st with failed_analyses := st.failed_analyses + 1 }
    | none => { st with failed_analyses := st.failed_analyses + 1 }

/-- The analysis loop of `analyze_all_games` over an already-selected list
of games: fold `run_step` from the initial statistics (`total_games` is
fixed to the list length before the loop, as in the source). -/
def run_batch (force_refresh : Bool) (cached : GameInfo → Bool)
    (outcome : GameInfo → StepOutcome) (games : List GameInfo) : BatchStats :=
  games.foldl (run_step force_refresh cached outcome)
    { total_games := games.length
      successful_analyses := 0
      failed_analyses := 0
      cached_analyses := 0
      analyzed_games := [] }

/-! ## Shared concrete values for witnesses and counterexamples -/

/-- A concrete `GameInfo` with the given id and player names, as
`extract_game_info` would produce it for a plain record. -/
def sampleGame (gid wp bp : String) : GameInfo :=
  { game_id := .str gid
    winner := .none
    white_player := .str wp
    black_player := .str bp
    white_rating := .int 1500
    black_rating := .int 1400
    moves := ["e4", "e5"]
    opening_name := .str "Kings Pawn"
    opening_eco := .str "B00"
    game_status := .str "resign"
    time_control := "10+5"
    created_at := 0
    total_moves := 2 }

/-! ## C1: colour assignment in the prompt formatter -/

/-- C1 counterexample: with stored players `alice` (white) and `bob`
(black), the target `carol` matches neither identity, yet
`format_game_for_analysis` assigns colour `Black`, not the `White` the
claim asserts. -/
theorem C1_default_is_black_counterexample :
    format_user_color (sampleGame "g1" "alice" "bob") "carol" = Except.ok "Black" ∧
    strLower "carol" ≠ strLower "alice" ∧ strLower "carol" ≠ strLower "bob" := by
  refine ⟨rfl, ?_, ?_⟩ <;> decide

/-- C1 (amended): the formatter compares the target identity
case-insensitively against the white player identity only; a match yields
`White` and any mismatch yields `Black` — in particular a target matching
neither stored identity is treated as Black. -/
theorem C1_user_color_white_match_else_black (g : GameInfo) (username w : String)
    (hw : g.white_player = PyVal.str w) :
    (strLower w = strLower username → format_user_color g username = Except.ok "White") ∧
    (strLower w ≠ strLower username → format_user_color g username = Except.ok "Black") := by
  unfold format_user_color pyLower
  rw [hw]
  constructor
  · intro h
    simp [h]
  · intro h
    simp [h]

/-- C1 witness: a target equal (up to case) to the stored white player is
assigned `White`. -/
theorem C1_user_color_witness :
    format_user_color (sampleGame "g1" "alice" "bob") "ALICE" = Except.ok "White" :=
  (C1_user_color_white_match_else_black (sampleGame "g1" "alice" "bob") "ALICE" "alice"
    rfl).1 (by decide)

/-! ## C4: move count invariant of GameRecord construction -/

/-- C4: whenever construction succeeds, `total_moves` equals the length of
the move sequence; and when the raw record has no `moves` field, or its
move string is empty, the move sequence is empty and `total_moves` is 0. -/
theorem C4_total_moves_invariant (d : PyDict) (g : GameInfo)
    (h : extract_game_info d = Except.ok g) :
    g.total_moves = g.moves.length ∧
    ((dictFind d "moves" = Option.none ∨ dictFind d "moves" = some (PyVal.str "")) →
      g.moves = [] ∧ g.total_moves = 0) := by
  unfold extract_game_info at h
  simp only [bind, Except.bind, pure, Except.pure] at h
  repeat' split at h
  all_goals simp_all
  all_goals
    cases h
    constructor
    · rfl
    · intro hm
      rcases hm with hm | hm <;>
        simp_all [dictGetD, pyTruthy]

/-- The `GameInfo` produced for a raw record with no fields at all. -/
def gameOfEmptyRecord : GameInfo :=
  { game_id := .str "Unknown"
    winner := .none
    white_player := .str "Unknown"
    black_player := .str "Unknown"
    white_rating := .int 0
    black_rating := .int 0
    moves := []
    opening_name := .str "Unknown Opening"
    opening_eco := .str "Unknown"
    game_status := .str "Unknown"
    time_control := "0+0"
    created_at := 0
    total_moves := 0 }

/-- C4 witness: the empty raw record (no `moves` field) yields an empty
move sequence and move count 0. -/
theorem C4_total_moves_invariant_witness :
    gameOfEmptyRecord.moves = [] ∧ gameOfEmptyRecord.total_moves = 0 :=
  (C4_total_moves_invariant [] gameOfEmptyRecord rfl).2 (Or.inl rfl)

/-! ## C5: totality of GameRecord construction -/

/-- Is the value a Python dict? -/
def isDictV : PyVal → Bool
  | .dict _ => true
  | _ => false

/-- Is the value a Python string? -/
def isStrV : PyVal → Bool
  | .str _ => true
  | _ => false

/-- Does the value behave as a number (`int` or `bool`)? -/
def isIntLike : PyVal → Bool
  | .int _ => true
  | .bool _ => true
  | _ => false

/-- An acceptable `createdAt` value: numeric, and inside the epoch range
`datetime.fromtimestamp` accepts (a bool converts to 0 or 1 ms, always in
range). -/
def timestamp_ok : PyVal → Bool
  | .int n => (minTimestampSec * 1000 ≤ n) && (n ≤ maxTimestampSec * 1000 + 999)
  | .bool _ => true
  | _ => false

/-- A predicate holds of the value stored under `k`, when the field is
present at all. -/
def field_ok (d : PyDict) (k : String) (p : PyVal → Bool) : Bool :=
  match dictFind d k with
  | Option.none => true
  | some v => p v

/-- A per-colour `players` entry is a dict whose `user` sub-field, when
present, is a dict. -/
def side_ok (v : PyVal) : Bool :=
  match v with
  | .dict sd => field_ok sd "user" isDictV
  | _ => false

/-- A raw record is well-typed when each sub-field the constructor
inspects structurally is, if present, of the type the code expects. -/
def well_typed_record (d : PyDict) : Bool :=
  field_ok d "players" (fun pv =>
    match pv with
    | .dict pd => field_ok pd "white" side_ok && field_ok pd "black" side_ok
    | _ => false) &&
  field_ok d "moves" (fun v => !(pyTruthy v) || isStrV v) &&
  field_ok d "opening" isDictV &&
  field_ok d "createdAt" timestamp_ok &&
  field_ok d "clock" (fun cv =>
    match cv with
    | .dict cd => field_ok cd "initial" isIntLike
    | _ => false)

/-- C5 counterexample: a record whose `moves` field is present but numeric
makes construction raise (`moves_string.split()` on an `int`), so
construction is not total over malformed sub-field types. -/
theorem C5_malformed_moves_counterexample :
    extract_game_info [("moves", PyVal.int 5)] = Except.error PyErr.attributeError := rfl

/-- If a possibly-absent field satisfies `field_ok` and the default
satisfies the predicate, so does the value actually used. -/
theorem field_ok_getD (d : PyDict) (k : String) (p : PyVal → Bool) (dv : PyVal)
    (h : field_ok d k p = true) (hdv : p dv = true) : p (dictGetD d k dv) = true := by
  unfold field_ok at h
  unfold dictGetD
  cases hf : dictFind d k <;> simp_all

/-- A value accepted by the dict-shaped `players` check is a dict with
both sides acceptable. -/
theorem players_shape (pv : PyVal)
    (h : (match pv with
          | PyVal.dict pd => field_ok pd "white" side_ok && field_ok pd "black" side_ok
          | _ => false) = true) :
    ∃ pd, pv = PyVal.dict pd ∧ field_ok pd "white" side_ok = true ∧
      field_ok pd "black" side_ok = true := by
  cases pv <;> simp_all

/-- A value accepted by `side_ok` is a dict with an acceptable `user`
sub-field. -/
theorem side_shape (v : PyVal) (h : side_ok v = true) :
    ∃ sd, v = PyVal.dict sd ∧ field_ok sd "user" isDictV = true := by
  unfold side_ok at h
  cases v <;> simp_all

/-- A value accepted by `isDictV` is a dict. -/
theorem dict_shape (v : PyVal) (h : isDictV v = true) : ∃ vd, v = PyVal.dict vd := by
  unfold isDictV at h
  cases v <;> simp_all

/-- A value accepted by `isIntLike` converts without raising. -/
theorem intlike_ok (v : PyVal) (h : isIntLike v = true) : ∃ n, pyAsInt v = Except.ok n := by
  unfold isIntLike at h
  unfold pyAsInt
  cases v <;> simp_all

/-- A value accepted by `timestamp_ok` converts without raising and its
instant passes the `fromtimestamp` range check. -/
theorem timestamp_shape (v : PyVal) (h : timestamp_ok v = true) :
    ∃ n, pyAsInt v = Except.ok n ∧ pyFromTimestampMs n = Except.ok n := by
  unfold timestamp_ok at h
  cases v with
  | int n =>
    simp only [Bool.and_eq_true, decide_eq_true_eq] at h
    exact ⟨n, rfl, by unfold pyFromTimestampMs; rw [if_pos h]⟩
  | bool b =>
    refine ⟨if b then 1 else 0, rfl, ?_⟩
    cases b <;> simp [pyFromTimestampMs, minTimestampSec, maxTimestampSec]
  | none => exact Bool.noConfusion h
  | str t => exact Bool.noConfusion h
  | list xs => exact Bool.noConfusion h
  | dict e => exact Bool.noConfusion h

/-- C5 (amended): construction never raises on records whose present
sub-fields are well-typed and whose `createdAt` instant lies inside the
range `datetime.fromtimestamp` accepts — in particular missing sub-fields
always fall back to the documented defaults without raising.  (A present
sub-field of unexpected type raises, see the counterexample; so does an
out-of-range timestamp, see `C5_out_of_range_timestamp`.) -/
theorem C5_construction_total_on_well_typed (d : PyDict)
    (h : well_typed_record d = true) : (extract_game_info d).isOk = true := by
  unfold well_typed_record at h
  simp only [Bool.and_eq_true] at h
  obtain ⟨⟨⟨⟨hp, hm⟩, ho⟩, hcr⟩, hck⟩ := h
  obtain ⟨pd, hpd, hw, hb⟩ :=
    players_shape _ (field_ok_getD d "players" _ (.dict []) hp (by rfl))
  obtain ⟨wd, hwd, hwu⟩ :=
    side_shape _ (field_ok_getD pd "white" side_ok (.dict []) hw (by rfl))
  obtain ⟨bd, hbd, hbu⟩ :=
    side_shape _ (field_ok_getD pd "black" side_ok (.dict []) hb (by rfl))
  obtain ⟨wud, hwud⟩ := dict_shape _ (field_ok_getD wd "user" isDictV (.dict []) hwu (by rfl))
  obtain ⟨bud, hbud⟩ := dict_shape _ (field_ok_getD bd "user" isDictV (.dict []) hbu (by rfl))
  obtain ⟨od, hod⟩ := dict_shape _ (field_ok_getD d "opening" isDictV (.dict []) ho (by rfl))
  obtain ⟨cn, hcn, hcts⟩ :=
    timestamp_shape _ (field_ok_getD d "createdAt" timestamp_ok (.int 0) hcr (by rfl))
  have hclock := field_ok_getD d "clock" _ (.dict []) hck (by rfl)
  obtain ⟨kd, hkd, hki⟩ : ∃ kd, dictGetD d "clock" (.dict []) = PyVal.dict kd ∧
      field_ok kd "initial" isIntLike = true := by
    cases hkv : dictGetD d "clock" (.dict []) <;> rw [hkv] at hclock <;> simp_all
  obtain ⟨inN, hin⟩ := intlike_ok _ (field_ok_getD kd "initial" isIntLike (.int 0) hki (by rfl))
  have hmok := field_ok_getD d "moves" _ (.str "") hm (by rfl)
  unfold extract_game_info
  simp only [bind, Except.bind, pure, Except.pure, hpd, hod, hcn, hcts, hkd]
  simp only [pyGetAttrGet, hwd, hbd, hwud, hbud, hin]
  split
  · cases hmv : dictGetD d "moves" (.str "") <;> rw [hmv] at hmok <;>
      simp_all [pyTruthy, isStrV, Except.isOk, Except.toBool]
  · rfl

/-- A numeric `createdAt` whose instant lies outside the `datetime`
range makes construction raise, as `datetime.fromtimestamp` does: the
type of the field is as expected, yet construction is not total over it. -/
theorem C5_out_of_range_timestamp :
    extract_game_info [("createdAt", PyVal.int (10 ^ 15))] =
      Except.error PyErr.valueError := by rfl

/-- A realistic well-typed raw record. -/
def sampleRawRecord : PyDict :=
  [("id", .str "abc123"),
   ("winner", .str "white"),
   ("players", .dict
     [("white", .dict [("user", .dict [("name", .str "lza808")]), ("rating", .int 1500)]),
      ("black", .dict [("user", .dict [("name", .str "opponent")]), ("rating", .int 1400)])]),
   ("moves", .str "e4 e5 Nf3"),
   ("opening", .dict [("name", .str "Kings Knight"), ("eco", .str "C40")]),
   ("status", .str "resign"),
   ("createdAt", .int 1700000000000),
   ("clock", .dict [("initial", .int 600), ("increment", .int 5)])]

/-- C5 witness: construction succeeds on a concrete well-typed record. -/
theorem C5_construction_total_witness :
    (extract_game_info sampleRawRecord).isOk = true :=
  C5_construction_total_on_well_typed sampleRawRecord (by rfl)

/-! ## C6: cache round-trip -/

/-- C6: writing an analysis for a key and reading the same key back
returns the entry just written, whose `analysis` text and `game_info`
snapshot are exactly the values that were stored. -/
theorem C6_cache_round_trip (st : CacheState)
    (cache_dir game_id model username analysis now : String) (gi : GameInfo) :
    load_analysis_from_cache
        (save_analysis_to_cache st cache_dir game_id model username analysis gi now)
        cache_dir game_id model username =
      some (cache_entry game_id model username analysis now gi) ∧
    dictFind [("game_id", PyVal.str game_id), ("model", PyVal.str model),
              ("username", PyVal.str username), ("analysis", PyVal.str analysis),
              ("timestamp", PyVal.str now), ("game_info", game_info_snapshot gi)]
        "analysis" = some (PyVal.str analysis) ∧
    dictFind [("game_id", PyVal.str game_id), ("model", PyVal.str model),
              ("username", PyVal.str username), ("analysis", PyVal.str analysis),
              ("timestamp", PyVal.str now), ("game_info", game_info_snapshot gi)]
        "game_info" = some (game_info_snapshot gi) := by
  refine ⟨?_, by rfl, by rfl⟩
  unfold load_analysis_from_cache save_analysis_to_cache
  simp [List.find?]

/-! ## C7: cache-key derivation -/

/-- C7 counterexample: a player identity containing a colon survives into
the derived storage key unsanitized, so not every key component is freed
of path-unsafe characters. -/
theorem C7_unsanitized_username_counterexample :
    ':' ∈ (get_cache_filename "analysis_cache" "abc123" "llama3.2:1b" "user:name").data :=
  by decide

/-- C7 (amended): key derivation is the deterministic function
`cache_dir/game_id_username_safe_model.json` of the triple, and the model
component is sanitized — no colon or slash remains in `safe_model model`;
the game-id and username components are used verbatim. -/
theorem replace_char_not_mem (l : List Char) (t r : Char) (hne : r ≠ t) :
    t ∉ l.map (fun c => if c == t then r else c) := by
  intro hmem
  rw [List.mem_map] at hmem
  obtain ⟨a, _, ha⟩ := hmem
  by_cases h : a = t <;> simp_all

theorem map_replace_not_mem (l : List Char) (s r t : Char) (h : t ∉ l) (hr : r ≠ t) :
    t ∉ l.map (fun c => if c == s then r else c) := by
  intro hmem
  rw [List.mem_map] at hmem
  obtain ⟨a, ha, hea⟩ := hmem
  by_cases hc : a = s <;> simp_all

theorem C7_model_component_sanitized (cache_dir game_id model username : String) :
    get_cache_filename cache_dir game_id model username =
      cache_dir ++ "/" ++ game_id ++ "_" ++ username ++ "_" ++ safe_model model ++ ".json" ∧
    (':' ∉ (safe_model model).data ∧ '/' ∉ (safe_model model).data) := by
  refine ⟨by simp [get_cache_filename, cache_basename, String.append_assoc], ?_, ?_⟩
  · exact map_replace_not_mem _ '/' '_' ':'
      (replace_char_not_mem model.data ':' '_' (by decide)) (by decide)
  · exact replace_char_not_mem _ '/' '_' (by decide)

/-! ## C8 and C10: batch resume slicing -/

/-- `findIdx?` returns the index of the first element satisfying the
predicate. -/
theorem findIdx_eq_of_first (l : List GameInfo) (p : GameInfo → Bool) (k : Nat)
    (hk : k < l.length) (hp : p (l.get ⟨k, hk⟩) = true)
    (hfirst : ∀ j (hj : j < k), p (l.get ⟨j, Nat.lt_trans hj hk⟩) = false) :
    l.findIdx? p = some k := by
  induction l generalizing k with
  | nil => exact absurd hk (by simp)
  | cons a l ih =>
    cases k with
    | zero =>
      simp only [List.get] at hp
      simp [List.findIdx?, hp]
    | succ k =>
      have ha : p a = false := hfirst 0 (Nat.succ_pos k)
      have hk' : k < l.length := Nat.lt_of_succ_lt_succ hk
      have := ih k hk' hp (fun j hj => hfirst (j + 1) (Nat.succ_lt_succ hj))
      simp [List.findIdx?, ha, this]

/-- `findIdx?` finds nothing when no element satisfies the predicate. -/
theorem findIdx_eq_none_of_all (l : List GameInfo) (p : GameInfo → Bool)
    (h : ∀ g ∈ l, p g = false) : l.findIdx? p = none := by
  induction l with
  | nil => simp [List.findIdx?]
  | cons a l ih =>
    have ha := h a (List.mem_cons_self a l)
    simp [List.findIdx?, ha, ih (fun g hg => h g (List.mem_cons_of_mem a hg))]

/-- C8: resuming from the identity of the k-th record (the first record
carrying that identity, as game identities are unique) selects exactly the
records from the k-th one to the end, in their original order; the loop of
`analyze_all_games` then visits that selection in order. -/
theorem C8_resume_from_kth_record (games : List GameInfo) (k : Nat) (s : String)
    (hk : k < games.length)
    (hid : (games.get ⟨k, hk⟩).game_id = PyVal.str s)
    (hne : s ≠ "")
    (hfirst : ∀ j (hj : j < k),
      pyEqStr (games.get ⟨j, Nat.lt_trans hj hk⟩).game_id s = false) :
    select_games games (some s) none = games.drop k := by
  unfold select_games
  have hidx : games.findIdx? (fun g => pyEqStr g.game_id s) = some k :=
    findIdx_eq_of_first games _ k hk (by
      have hid2 : games[k].game_id = PyVal.str s := hid
      simp [pyEqStr, hid2]) hfirst
  simp [hne, hidx]

/-- C10: a resume identity matching no record falls back to start index 0:
the whole sequence is selected. -/
theorem C10_resume_no_match_processes_all (games : List GameInfo) (s : String)
    (h : ∀ g ∈ games, pyEqStr g.game_id s = false) :
    select_games games (some s) none = games := by
  unfold select_games
  by_cases hne : s = ""
  · simp [hne]
  · have hidx := findIdx_eq_none_of_all games _ h
    simp [hne, hidx]

/-- Ten records with distinct identities `r1` … `r10`. -/
def tenGames : List GameInfo :=
  [sampleGame "r1" "a" "b", sampleGame "r2" "a" "b", sampleGame "r3" "a" "b",
   sampleGame "r4" "a" "b", sampleGame "r5" "a" "b", sampleGame "r6" "a" "b",
   sampleGame "r7" "a" "b", sampleGame "r8" "a" "b", sampleGame "r9" "a" "b",
   sampleGame "r10" "a" "b"]

/-- C8 witness: resuming the ten-record batch from the identity of record 5
selects records 5–10. -/
theorem C8_resume_witness :
    select_games tenGames (some "r5") none = tenGames.drop 4 :=
  C8_resume_from_kth_record tenGames 4 "r5" (by decide) rfl (by decide)
    (by intro j hj; interval_cases j <;> rfl)

/-- C10 witness: a resume identity absent from the ten-record batch leaves
the whole batch selected. -/
theorem C10_resume_witness :
    select_games tenGames (some "zz") none = tenGames :=
  C10_resume_no_match_processes_all tenGames "zz" (by
    intro g hg; fin_cases hg <;> rfl)

/-! ## C9: partial-failure tolerance of the batch loop -/

/-- A successful analysis call increments the success count and leaves
the failure count and `total_games` unchanged. -/
theorem run_step_success (force_refresh : Bool) (cached : GameInfo → Bool)
    (outcome : GameInfo → StepOutcome) (st : BatchStats) (g : GameInfo)
    (h : outcome_success (outcome g) = true) :
    (run_step force_refresh cached outcome st g).successful_analyses
        = st.successful_analyses + 1 ∧
    (run_step force_refresh cached outcome st g).failed_analyses = st.failed_analyses ∧
    (run_step force_refresh cached outcome st g).total_games = st.total_games := by
  unfold outcome_success at h
  unfold run_step
  cases ho : outcome g with
  | exn => rw [ho] at h; exact absurd h (by simp)
  | ok a =>
    rw [ho] at h
    cases a with
    | none => exact absurd h (by simp)
    | some s => simp_all

/-- A failed or raising analysis call increments the failure count and
leaves the success count and `total_games` unchanged. -/
theorem run_step_failure (force_refresh : Bool) (cached : GameInfo → Bool)
    (outcome : GameInfo → StepOutcome) (st : BatchStats) (g : GameInfo)
    (h : outcome_success (outcome g) = false) :
    (run_step force_refresh cached outcome st g).successful_analyses
        = st.successful_analyses ∧
    (run_step force_refresh cached outcome st g).failed_analyses
        = st.failed_analyses + 1 ∧
    (run_step force_refresh cached outcome st g).total_games = st.total_games := by
  unfold outcome_success at h
  unfold run_step
  cases ho : outcome g with
  | exn => simp
  | ok a =>
    rw [ho] at h
    cases a with
    | none => simp
    | some s => simp_all

/-- Folding the loop body over a segment of all-successful records adds
the segment length to the success count, leaves the failure count alone,
and never changes `total_games`. -/
theorem run_fold_success_seg (force_refresh : Bool) (cached : GameInfo → Bool)
    (outcome : GameInfo → StepOutcome) (l : List GameInfo) (st : BatchStats)
    (h : ∀ g ∈ l, outcome_success (outcome g) = true) :
    (l.foldl (run_step force_refresh cached outcome) st).successful_analyses
        = st.successful_analyses + l.length ∧
    (l.foldl (run_step force_refresh cached outcome) st).failed_analyses
        = st.failed_analyses ∧
    (l.foldl (run_step force_refresh cached outcome) st).total_games = st.total_games := by
  induction l generalizing st with
  | nil => simp
  | cons a l ih =>
    have ha := run_step_success force_refresh cached outcome st a
      (h a (List.mem_cons_self a l))
    obtain ⟨hrs, hrf, hrt⟩ :=
      ih (run_step force_refresh cached outcome st a)
        (fun g hg => h g (List.mem_cons_of_mem a hg))
    refine ⟨?_, ?_, ?_⟩ <;> rw [List.foldl_cons]
    · rw [hrs, ha.1, List.length_cons]; omega
    · rw [hrf, ha.2.1]
    · rw [hrt, ha.2.2]

/-- C9: when the analysis call fails (returns nothing meaningful or
raises) for exactly one record of a batch and succeeds for all the
others, the loop still visits every record: the reported statistics show
all records as total, one failure, and success for all remaining
records. -/
theorem C9_partial_failure_tolerated (force_refresh : Bool) (cached : GameInfo → Bool)
    (outcome : GameInfo → StepOutcome) (l1 l2 : List GameInfo) (g : GameInfo)
    (h1 : ∀ g1 ∈ l1, outcome_success (outcome g1) = true)
    (h2 : ∀ g2 ∈ l2, outcome_success (outcome g2) = true)
    (hg : outcome_success (outcome g) = false) :
    (run_batch force_refresh cached outcome (l1 ++ g :: l2)).total_games
        = (l1 ++ g :: l2).length ∧
    (run_batch force_refresh cached outcome (l1 ++ g :: l2)).failed_analyses = 1 ∧
    (run_batch force_refresh cached outcome (l1 ++ g :: l2)).successful_analyses
        = (l1 ++ g :: l2).length - 1 := by
  unfold run_batch
  rw [List.foldl_append, List.foldl_cons]
  obtain ⟨ha1, ha2, ha3⟩ := run_fold_success_seg force_refresh cached outcome l1 _ h1
  set st1 := l1.foldl (run_step force_refresh cached outcome)
    { total_games := (l1 ++ g :: l2).length
      successful_analyses := 0
      failed_analyses := 0
      cached_analyses := 0
      analyzed_games := [] } with hst1
  obtain ⟨hb1, hb2, hb3⟩ := run_step_failure force_refresh cached outcome st1 g hg
  obtain ⟨hc1, hc2, hc3⟩ := run_fold_success_seg force_refresh cached outcome l2
    (run_step force_refresh cached outcome st1 g) h2
  refine ⟨?_, ?_, ?_⟩
  · rw [hc3, hb3, ha3]
  · rw [hc2, hb2, ha2]
  · rw [hc1, hb1, ha1]
    simp only [List.length_append, List.length_cons]
    omega

/-- A concrete analysis oracle: raises on the game with id `bad`,
succeeds with a non-empty text on every other game. -/
def demoOutcome (g : GameInfo) : StepOutcome :=
  if pyEqStr g.game_id "bad" then .exn else .ok (some "analysis text")

/-- C9 witness: in a concrete batch of three records whose middle record
raises, the statistics report 3 total games, 1 failure, 2 successes. -/
theorem C9_partial_failure_witness :
    (run_batch false (fun _ => false) demoOutcome
        [sampleGame "w1" "a" "b", sampleGame "bad" "a" "b",
         sampleGame "w2" "a" "b"]).total_games = 3 ∧
    (run_batch false (fun _ => false) demoOutcome
        [sampleGame "w1" "a" "b", sampleGame "bad" "a" "b",
         sampleGame "w2" "a" "b"]).failed_analyses = 1 ∧
    (run_batch false (fun _ => false) demoOutcome
        [sampleGame "w1" "a" "b", sampleGame "bad" "a" "b",
         sampleGame "w2" "a" "b"]).successful_analyses = 2 := by
  have h := C9_partial_failure_tolerated false (fun _ => false) demoOutcome
    [sampleGame "w1" "a" "b"] [sampleGame "w2" "a" "b"] (sampleGame "bad" "a" "b")
    (by intro g1 hg1; fin_cases hg1; rfl)
    (by intro g2 hg2; fin_cases hg2; rfl)
    (by rfl)
  exact ⟨h.1.trans (by rfl), h.2.1, h.2.2.trans (by rfl)⟩

/-! ## C2 and C3: the streaming chunk parser -/

/-- A well-formed non-terminal stream line: blank, malformed, or a JSON
object whose `response` field (when present) is a string and whose `done`
flag is absent or falsy. -/
def good_nondone : StreamLine → Bool
  | .blank => true
  | .malformed => true
  | .chunk v =>
    match v with
    | .dict d =>
      (match dictFind d "response" with
       | some (.str _) => true
       | Option.none => true
       | some _ => false) &&
      !(pyTruthy (dictGetD d "done" (.bool false)))
    | _ => false

/-- A well-formed terminal stream line: a JSON object whose `response`
field (when present) is a string and whose `done` flag is truthy. -/
def done_line : StreamLine → Bool
  | .chunk v =>
    match v with
    | .dict d =>
      (match dictFind d "response" with
       | some (.str _) => true
       | Option.none => true
       | some _ => false) &&
      pyTruthy (dictGetD d "done" (.bool false))
    | _ => false
  | _ => false

/-- The partial text a line contributes to the accumulated analysis. -/
def line_text : StreamLine → String
  | .chunk (.dict d) =>
    match dictFind d "response" with
    | some (.str s) => s
    | _ => ""
  | _ => ""

/-- The concatenation, in arrival order, of the partial texts of a list of
lines. -/
def stream_text : List StreamLine → String
  | [] => ""
  | l :: rest => line_text l ++ stream_text rest

theorem str_append_nil (s : String) : s ++ "" = s := by
  cases s
  show String.mk (_ ++ []) = _
  rw [List.append_nil]

theorem str_nil_append (s : String) : "" ++ s = s := by
  cases s
  show String.mk ([] ++ _) = _
  rw [List.nil_append]

theorem stream_text_append (a b : List StreamLine) :
    stream_text (a ++ b) = stream_text a ++ stream_text b := by
  induction a with
  | nil => rw [List.nil_append]; exact (str_nil_append _).symm
  | cons l a ih =>
    rw [List.cons_append,
      show stream_text (l :: (a ++ b)) = line_text l ++ stream_text (a ++ b) from rfl,
      ih,
      show stream_text (l :: a) = line_text l ++ stream_text a from rfl,
      String.append_assoc]

/-- Consuming one well-formed non-terminal line appends its text and
continues. -/
theorem stream_loop_step (l : StreamLine) (rest : List StreamLine) (acc : String)
    (h : good_nondone l = true) :
    stream_loop (l :: rest) acc = stream_loop rest (acc ++ line_text l) := by
  cases l with
  | blank => simp [stream_loop, line_text, str_append_nil]
  | malformed => simp [stream_loop, line_text, str_append_nil]
  | chunk v =>
    cases v <;> simp_all [good_nondone]
    case dict d =>
    obtain ⟨hr, hd⟩ := h
    cases hf : dictFind d "response" with
    | none =>
      simp [stream_loop, pyIn, pyGetAttrGet, hf, line_text, str_append_nil, hd]
    | some t =>
      cases t <;> rw [hf] at hr <;>
        simp_all [stream_loop, pyIn, pyIndex, pyAddStr, pyGetAttrGet, hf, line_text]

/-- Consuming a well-formed terminal line appends its text and stops:
every line after it stays unconsumed. -/
theorem stream_loop_done (l : StreamLine) (rest : List StreamLine) (acc : String)
    (h : done_line l = true) :
    stream_loop (l :: rest) acc = Except.ok (acc ++ line_text l, rest) := by
  cases l with
  | blank => exact absurd h (by simp [done_line])
  | malformed => exact absurd h (by simp [done_line])
  | chunk v =>
    cases v <;> simp_all [done_line]
    case dict d =>
    obtain ⟨hr, hd⟩ := h
    cases hf : dictFind d "response" with
    | none =>
      simp [stream_loop, pyIn, pyGetAttrGet, hf, line_text, str_append_nil, hd]
    | some t =>
      cases t <;> rw [hf] at hr <;>
        simp_all [stream_loop, pyIn, pyIndex, pyAddStr, pyGetAttrGet, hf, line_text]

/-- Consuming a well-formed non-terminal prefix accumulates its text. -/
theorem stream_loop_run_seg (pre rest : List StreamLine) (acc : String)
    (h : ∀ l ∈ pre, good_nondone l = true) :
    stream_loop (pre ++ rest) acc = stream_loop rest (acc ++ stream_text pre) := by
  induction pre generalizing acc with
  | nil => rw [List.nil_append]; unfold stream_text; rw [str_append_nil]
  | cons l pre ih =>
    rw [List.cons_append,
      stream_loop_step l (pre ++ rest) acc (h l (List.mem_cons_self l pre)),
      ih _ (fun x hx => h x (List.mem_cons_of_mem l hx)),
      show stream_text (l :: pre) = line_text l ++ stream_text pre from rfl,
      ← String.append_assoc]

/-- Core run of the chunk loop on a well-formed prefix followed by the
first terminal line: the accumulated text is the concatenation of the
partial texts up to and including the terminal line, and the remaining
lines are untouched. -/
theorem stream_done_run (pre rest : List StreamLine) (dl : StreamLine)
    (hpre : ∀ l ∈ pre, good_nondone l = true)
    (hdl : done_line dl = true) :
    stream_loop (pre ++ dl :: rest) "" = Except.ok (stream_text (pre ++ [dl]), rest) ∧
    analyze_game_streaming (pre ++ dl :: rest) =
      (if pyStripTruthy (stream_text (pre ++ [dl])) then some (stream_text (pre ++ [dl]))
       else none) := by
  have h1 : stream_loop (pre ++ dl :: rest) "" = Except.ok (stream_text (pre ++ [dl]), rest) := by
    rw [stream_loop_run_seg pre (dl :: rest) "" hpre, stream_loop_done dl rest _ hdl,
      str_nil_append, stream_text_append,
      show stream_text [dl] = line_text dl ++ "" from rfl, str_append_nil]
  refine ⟨h1, ?_⟩
  unfold analyze_game_streaming
  rw [h1]

/-- C2: for a stream made of well-formed non-terminal lines followed by
the first line whose `done` flag is truthy, the parser returns exactly the
concatenation, in arrival order, of the `response` texts up to and
including that terminal line; no later line is consumed; and the result is
`none` precisely when the accumulated text is empty or whitespace-only. -/
theorem C2_streaming_stops_at_first_done (pre rest : List StreamLine) (dl : StreamLine)
    (hpre : ∀ l ∈ pre, good_nondone l = true)
    (hdl : done_line dl = true) :
    stream_loop (pre ++ dl :: rest) "" = Except.ok (stream_text (pre ++ [dl]), rest) ∧
    analyze_game_streaming (pre ++ dl :: rest) =
      (if pyStripTruthy (stream_text (pre ++ [dl])) then some (stream_text (pre ++ [dl]))
       else none) :=
  stream_done_run pre rest dl hpre hdl

/-- The chunk `{"response": "A", "done": false}`. -/
def chunkA : StreamLine := .chunk (.dict [("response", .str "A"), ("done", .bool false)])

/-- The chunk `{"response": "B", "done": true}`. -/
def chunkB : StreamLine := .chunk (.dict [("response", .str "B"), ("done", .bool true)])

/-- The chunk `{"response": "C", "done": true}`, placed after the terminal
chunk to observe that it is never consumed. -/
def chunkC : StreamLine := .chunk (.dict [("response", .str "C"), ("done", .bool true)])

/-- C2 witness: the stream `{"response":"A","done":false}`,
`{"response":"B","done":true}`, followed by one more chunk, accumulates
`"AB"` and leaves the trailing chunk unconsumed. -/
theorem C2_streaming_witness :
    analyze_game_streaming [chunkA, chunkB, chunkC] = some "AB" ∧
    stream_loop [chunkA, chunkB, chunkC] "" = Except.ok ("AB", [chunkC]) := by
  have h := C2_streaming_stops_at_first_done [chunkA] [chunkC] chunkB
    (by intro l hl; fin_cases hl; rfl) (by rfl)
  exact ⟨h.2.trans (by rfl), h.1.trans (by rfl)⟩

/-- C3: a malformed line anywhere before the terminal chunk is skipped
(the `JSONDecodeError` handler continues the loop) and the terminal
text of the terminal chunk still arrives in the returned analysis. -/
theorem C3_malformed_line_skipped (pre rest : List StreamLine) (s : String)
    (hpre : ∀ l ∈ pre, good_nondone l = true)
    (hs : pyStripTruthy (stream_text pre ++ s) = true) :
    analyze_game_streaming
        (pre ++ .malformed ::
          .chunk (.dict [("response", .str s), ("done", .bool true)]) :: rest) =
      some (stream_text pre ++ s) := by
  have h := stream_done_run (pre ++ [.malformed]) rest
    (.chunk (.dict [("response", .str s), ("done", .bool true)]))
    (by
      intro l hl
      rcases List.mem_append.mp hl with hl | hl
      · exact hpre l hl
      · simp only [List.mem_singleton] at hl
        rw [hl]; rfl)
    (by rfl)
  rw [List.append_assoc] at h
  have htext : stream_text ((pre ++ [StreamLine.malformed]) ++
      [StreamLine.chunk (.dict [("response", .str s), ("done", .bool true)])]) =
      stream_text pre ++ s := by
    rw [stream_text_append, stream_text_append]
    rw [show stream_text [StreamLine.malformed] = "" from rfl,
      show stream_text [StreamLine.chunk
        (.dict [("response", .str s), ("done", .bool true)])] = s ++ "" from rfl,
      str_append_nil, str_append_nil]
  rw [htext] at h
  rw [show ([StreamLine.malformed] ++
      StreamLine.chunk (.dict [("response", .str s), ("done", .bool true)]) :: rest) =
      (StreamLine.malformed ::
        StreamLine.chunk (.dict [("response", .str s), ("done", .bool true)]) :: rest)
      from rfl] at h
  rw [h.2, if_pos hs]

/-- C3 witness: the stream containing one malformed line followed by
`{"response":"B","done":true}` still returns `"B"`. -/
theorem C3_malformed_line_witness :
    analyze_game_streaming [.malformed,
      .chunk (.dict [("response", .str "B"), ("done", .bool true)])] = some "B" := by
  have h := C3_malformed_line_skipped [] [] "B" (by intro l hl; cases hl) (by rfl)
  exact h.trans (by rfl)
